import Mathlib

/-!
Shallow embedding of the real-time core of the PubNub JavaScript client:
the Subscription Event Engine's `UNSUBSCRIBED` state, the Presence Event
Engine's `HEARTBEAT_COOLDOWN` state, request validation for the Objects
API `Set Channel Members` / `Set UUID Memberships` endpoints, and the
configuration defaulting routine `setDefaults`.

State-transition handlers are translated from the registered `.on(...)`
callbacks of the state modules; each handler maps the current context and
an event payload to a successor state (with its context) and a list of
emitted effects.  Pairs `(state, event-kind)` with no registered handler
yield `none`.
-/

namespace PubNub

/-- A subscription cursor as stored in engine context:
`{ timetoken: string, region: number }`. -/
structure SubscribeCursor where
  timetoken : String
  region : Int
deriving DecidableEq, Repr

/-- Subscription Event Engine configurations: a state tag together with the
context that state carries.  `UNSUBSCRIBED` carries no context
(`with(undefined)` in the source); `HANDSHAKING` carries channels, groups
and an optional cursor. -/
inductive SubConf where
  | unsubscribed : SubConf
  | handshaking (channels : List String) (groups : List String)
      (cursor : Option SubscribeCursor) : SubConf
deriving DecidableEq, Repr

/-- Subscription Event Engine events relevant to the `UNSUBSCRIBED` state.
The `restore` event carries a caller-supplied cursor whose timetoken is a
number (coerced to a string when stored in context). -/
inductive SubEvent where
  | subscriptionChange (channels : List String) (groups : List String) : SubEvent
  | restore (channels : List String) (groups : List String)
      (timetoken : Nat) (region : Int) : SubEvent
  | handshakeSuccess (cursor : SubscribeCursor) : SubEvent
  | handshakeFailure : SubEvent
  | receiveSuccess : SubEvent
  | receiveFailure : SubEvent
  | disconnect : SubEvent
  | reconnect : SubEvent
deriving DecidableEq, Repr

/-- Event kinds of the Subscription engine (the tag an event is dispatched
on). -/
inductive SubEventKind where
  | subscriptionChange | restore | handshakeSuccess | handshakeFailure
  | receiveSuccess | receiveFailure | disconnect | reconnect
deriving DecidableEq, Repr

/-- The kind (dispatch tag) of a Subscription engine event. -/
def SubEvent.kind : SubEvent → SubEventKind
  | .subscriptionChange _ _ => .subscriptionChange
  | .restore _ _ _ _ => .restore
  | .handshakeSuccess _ => .handshakeSuccess
  | .handshakeFailure => .handshakeFailure
  | .receiveSuccess => .receiveSuccess
  | .receiveFailure => .receiveFailure
  | .disconnect => .disconnect
  | .reconnect => .reconnect

/-- Effects emitted by Subscription engine transitions. -/
inductive SubEffect where
  | handshake (channels : List String) (groups : List String) : SubEffect
  | receiveMessages (cursor : SubscribeCursor) : SubEffect
deriving DecidableEq, Repr

/-- Transition handlers registered on `UnsubscribedState`
(`unsubscribed.js`): one for `subscriptionChange` and one for `restore`;
every other event kind has no handler (`none`).

* `subscriptionChange`: if both payload lists are empty, stay
  `UNSUBSCRIBED` with `undefined` context; otherwise go to `HANDSHAKING`
  with `{ channels: payload.channels, groups: payload.groups }`.
* `restore`: same emptiness test; the non-empty branch additionally seeds
  the cursor as
  `{ timetoken: (template-literal string of payload.cursor.timetoken), region: payload.cursor.region }`.

Neither handler attaches transition effects. -/
def unsubscribedOn : SubEvent → Option (SubConf × List SubEffect)
  | .subscriptionChange channels groups =>
      if channels.length = 0 ∧ groups.length = 0 then
        some (.unsubscribed, [])
      else
        some (.handshaking channels groups none, [])
  | .restore channels groups timetoken region =>
      if channels.length = 0 ∧ groups.length = 0 then
        some (.unsubscribed, [])
      else
        some (.handshaking channels groups
          (some { timetoken := toString timetoken, region := region }), [])
  | _ => none

/-- Modelled from the spec: the Event Engine Core's dispatch rule
(`core/state.ts` / `core/engine.ts` are not part of the surveyed sources).
Processing a transition looks up the current state's handler for the
event; if absent, the event is a no-op — the engine keeps its state and
context and emits no effects. -/
def engineStep {σ ε φ : Type} (handler : ε → Option (σ × List φ))
    (s : σ) (e : ε) : σ × List φ :=
  match handler e with
  | none => (s, [])
  | some r => r

/-- One engine step of the Subscription engine taken from the
`UNSUBSCRIBED` configuration. -/
def unsubscribedStep (e : SubEvent) : SubConf × List SubEffect :=
  engineStep unsubscribedOn SubConf.unsubscribed e

/-- C1: in `UNSUBSCRIBED`, a `subscriptionChange` whose channel and group
payloads are both empty leaves the engine in `UNSUBSCRIBED` with empty
context (and no effects); any payload with at least one non-empty list
moves the engine to `HANDSHAKING` carrying exactly the payload's channel
and group lists. -/
theorem unsubscribed_subscriptionChange_spec (channels groups : List String) :
    (channels = [] ∧ groups = [] →
      unsubscribedStep (.subscriptionChange channels groups) = (.unsubscribed, [])) ∧
    (channels ≠ [] ∨ groups ≠ [] →
      unsubscribedStep (.subscriptionChange channels groups) =
        (.handshaking channels groups none, [])) := by
  constructor
  · rintro ⟨rfl, rfl⟩
    rfl
  · intro h
    have hne : ¬(channels = [] ∧ groups = []) := by
      rcases h with h | h
      · exact fun hc => h hc.1
      · exact fun hc => h hc.2
    simp [unsubscribedStep, engineStep, unsubscribedOn, hne]

/-- Witness for C1: `subscribe(["room1"], [])` from `UNSUBSCRIBED` enters
`HANDSHAKING` with channel set `["room1"]`. -/
theorem unsubscribed_subscriptionChange_spec_witness :
    unsubscribedStep (.subscriptionChange ["room1"] []) =
      (.handshaking ["room1"] [] none, []) :=
  (unsubscribed_subscriptionChange_spec ["room1"] []).2 (Or.inl (by decide))

/-- C4: in `UNSUBSCRIBED`, a `restore` event with a non-empty channel or
group list moves the engine to `HANDSHAKING` with the supplied channels
and groups and a context cursor seeded from the event's cursor: the
timetoken is the decimal string of the supplied integer and the region is
the supplied integer; with both lists empty the engine stays
`UNSUBSCRIBED`. -/
theorem unsubscribed_restore_spec (channels groups : List String)
    (timetoken : Nat) (region : Int) :
    (channels = [] ∧ groups = [] →
      unsubscribedStep (.restore channels groups timetoken region) =
        (.unsubscribed, [])) ∧
    (channels ≠ [] ∨ groups ≠ [] →
      unsubscribedStep (.restore channels groups timetoken region) =
        (.handshaking channels groups
          (some { timetoken := toString timetoken, region := region }), [])) := by
  constructor
  · rintro ⟨rfl, rfl⟩
    rfl
  · intro h
    have hne : ¬(channels = [] ∧ groups = []) := by
      rcases h with h | h
      · exact fun hc => h hc.1
      · exact fun hc => h hc.2
    simp [unsubscribedStep, engineStep, unsubscribedOn, hne]

/-- Witness for C4: restoring `["room1"]` with cursor timetoken
`15000000000000000` and region `4` enters `HANDSHAKING` with the cursor
stored as `{ timetoken := "15000000000000000", region := 4 }`. -/
theorem unsubscribed_restore_spec_witness :
    unsubscribedStep (.restore ["room1"] [] 15000000000000000 4) =
      (.handshaking ["room1"] []
        (some { timetoken := "15000000000000000", region := 4 }), []) :=
  (unsubscribed_restore_spec ["room1"] [] 15000000000000000 4).2
    (Or.inl (by decide))

/-- Presence Event Engine configurations: a state tag with the context the
state carries.  `HEARTBEAT_INACTIVE` carries no context
(`with(undefined)`); the remaining states carry the current channel and
group lists. -/
inductive PresenceConf where
  | heartbeatInactive : PresenceConf
  | heartbeating (channels : List String) (groups : List String) : PresenceConf
  | heartbeatCooldown (channels : List String) (groups : List String) : PresenceConf
  | heartbeatStopped (channels : List String) (groups : List String) : PresenceConf
  | heartbeatFailed (channels : List String) (groups : List String) : PresenceConf
deriving DecidableEq, Repr

/-- Presence Event Engine events. `disconnect` and `leftAll` carry the
`isOffline` flag of their payload. -/
inductive PresenceEvent where
  | joined (channels : List String) (groups : List String) : PresenceEvent
  | left (channels : List String) (groups : List String) : PresenceEvent
  | leftAll (isOffline : Bool) : PresenceEvent
  | disconnect (isOffline : Bool) : PresenceEvent
  | timesUp : PresenceEvent
  | heartbeatSuccess : PresenceEvent
  | heartbeatFailure : PresenceEvent
  | reconnect : PresenceEvent
deriving DecidableEq, Repr

/-- Effects emitted by Presence engine transitions and by state
entry/exit hooks. -/
inductive PresenceEffect where
  | heartbeat (channels : List String) (groups : List String) : PresenceEffect
  | leave (channels : List String) (groups : List String) : PresenceEffect
  | wait : PresenceEffect
  | cancelWait : PresenceEffect
deriving DecidableEq, Repr

/-- Transition handlers registered on `HeartbeatCooldownState`
(`heartbeat_cooldown.js`), translated clause by clause:

* `timesUp` → `HeartbeatingState.with({channels: context.channels, groups: context.groups})`;
* `joined` → `Heartbeating` whose channels are
  `[...context.channels, ...payload.channels.filter(c => !context.channels.includes(c))]`
  and likewise for groups;
* `left` → `Heartbeating` whose channels are
  `context.channels.filter(c => !payload.channels.includes(c))` (likewise
  groups), with effect `leave(payload.channels, payload.groups)`;
* `disconnect` → `HeartbeatStopped` with unchanged context and, when the
  event is not flagged offline, effect `leave(context.channels, context.groups)`;
* `leftAll` → `HeartbeatInactive` with `undefined` context and the same
  offline-conditional `leave` effect.

Other event kinds have no registered handler. -/
def heartbeatCooldownOn (channels groups : List String) :
    PresenceEvent → Option (PresenceConf × List PresenceEffect)
  | .timesUp => some (.heartbeating channels groups, [])
  | .joined pc pg =>
      some (.heartbeating
        (channels ++ pc.filter (fun c => !channels.contains c))
        (groups ++ pg.filter (fun g => !groups.contains g)), [])
  | .left pc pg =>
      some (.heartbeating
        (channels.filter (fun c => !pc.contains c))
        (groups.filter (fun g => !pg.contains g)),
        [.leave pc pg])
  | .disconnect isOffline =>
      some (.heartbeatStopped channels groups,
        if isOffline then [] else [.leave channels groups])
  | .leftAll isOffline =>
      some (.heartbeatInactive,
        if isOffline then [] else [.leave channels groups])
  | _ => none

/-- Entry-hook effects of Presence states. `HeartbeatCooldownState.onEnter`
emits the `wait` timer effect (source); the `heartbeat` effect on entering
`Heartbeating` is modelled from the spec: `HeartbeatInactive + joined →
Heartbeating, emits heartbeat effect` (the `heartbeating` state module is
not among the surveyed sources). -/
def presenceOnEnter : PresenceConf → List PresenceEffect
  | .heartbeatCooldown _ _ => [.wait]
  | .heartbeating channels groups => [.heartbeat channels groups]
  | _ => []

/-- Exit-hook effects of Presence states. `HeartbeatCooldownState.onExit`
emits the cancellation of the `wait` effect (source); no other surveyed
state registers an exit hook. -/
def presenceOnExit : PresenceConf → List PresenceEffect
  | .heartbeatCooldown _ _ => [.cancelWait]
  | _ => []

/-- Modelled from the spec: the Event Engine Core's processing of a
Presence transition (the engine core is not among the surveyed sources).
If the current state has no handler for the event, the event is a no-op;
otherwise the emitted effect sequence is the old state's exit effects,
then the transition's own effects, then the new state's entry effects. -/
def presenceEngineStep (handler : PresenceEvent → Option (PresenceConf × List PresenceEffect))
    (s : PresenceConf) (e : PresenceEvent) : PresenceConf × List PresenceEffect :=
  match handler e with
  | none => (s, [])
  | some (s2, effects) => (s2, presenceOnExit s ++ effects ++ presenceOnEnter s2)

/-- One engine step of the Presence engine taken from the
`HEARTBEAT_COOLDOWN` configuration with the given context. -/
def heartbeatCooldownStep (channels groups : List String) (e : PresenceEvent) :
    PresenceConf × List PresenceEffect :=
  presenceEngineStep (heartbeatCooldownOn channels groups)
    (.heartbeatCooldown channels groups) e

/-- Modelled from the spec: the effect dispatcher's handling of `leave`
effects (the presence effects dispatcher is not among the surveyed
sources).  When leave events are suppressed by configuration
(`suppressLeaveEvents`), a `leave` effect is dropped instead of producing
a leave request; every other effect passes through unchanged. -/
def dispatchPresenceEffects (suppressLeaveEvents : Bool)
    (effects : List PresenceEffect) : List PresenceEffect :=
  if suppressLeaveEvents then
    effects.filter (fun e =>
      match e with
      | .leave _ _ => false
      | _ => true)
  else effects

/-- Modelled from the spec: the wait-timer side of the effect dispatcher
(not among the surveyed sources).  Dispatching `wait` starts the cooldown
timer, whose later firing would deliver a `timesUp` event; dispatching
the cancellation of `wait` cancels any pending timer; other effects leave
the timer alone.  The result is whether a timer is still pending after
the effect list is dispatched. -/
def waitTimerPending (pending : Bool) : List PresenceEffect → Bool
  | [] => pending
  | .wait :: rest => waitTimerPending true rest
  | .cancelWait :: rest => waitTimerPending false rest
  | _ :: rest => waitTimerPending pending rest

/-- C2: in `HEARTBEAT_COOLDOWN`, `joined` moves the engine directly to
`HEARTBEATING` with the union of the context and payload channel/group
sets, and `left` moves it directly to `HEARTBEATING` with the set
difference (context minus payload); neither waits out the cooldown (the
single event step already lands in `HEARTBEATING`).  `left` additionally
emits a `leave` effect for the removed channels/groups, and the
dispatcher forwards that leave exactly when leave events are not
suppressed. -/
theorem heartbeatCooldown_joined_left_spec
    (channels groups pc pg : List String) (suppress : Bool) :
    (∃ c2 g2,
      heartbeatCooldownStep channels groups (.joined pc pg) =
        (.heartbeating c2 g2, [.cancelWait, .heartbeat c2 g2]) ∧
      (∀ x, x ∈ c2 ↔ x ∈ channels ∨ x ∈ pc) ∧
      (∀ x, x ∈ g2 ↔ x ∈ groups ∨ x ∈ pg)) ∧
    (∃ c2 g2,
      heartbeatCooldownStep channels groups (.left pc pg) =
        (.heartbeating c2 g2, [.cancelWait, .leave pc pg, .heartbeat c2 g2]) ∧
      (∀ x, x ∈ c2 ↔ x ∈ channels ∧ x ∉ pc) ∧
      (∀ x, x ∈ g2 ↔ x ∈ groups ∧ x ∉ pg)) ∧
    (PresenceEffect.leave pc pg ∈
        dispatchPresenceEffects suppress
          (heartbeatCooldownStep channels groups (.left pc pg)).2 ↔
      suppress = false) := by
  refine ⟨⟨_, _, rfl, ?_, ?_⟩, ⟨_, _, rfl, ?_, ?_⟩, ?_⟩
  · intro x
    simp [List.mem_filter]
    tauto
  · intro x
    simp [List.mem_filter]
    tauto
  · intro x
    simp [List.mem_filter]
  · intro x
    simp [List.mem_filter]
  · cases suppress <;>
      simp [dispatchPresenceEffects, heartbeatCooldownStep, presenceEngineStep,
        heartbeatCooldownOn, presenceOnExit, presenceOnEnter]

/-- C3: in `HEARTBEAT_COOLDOWN`, `disconnect` moves the engine to
`HEARTBEAT_STOPPED` with unchanged context and `leftAll` moves it to
`HEARTBEAT_INACTIVE`; in both transitions a `leave` effect for the
current channel/group members is emitted exactly when the event is not
flagged offline. -/
theorem heartbeatCooldown_disconnect_leftAll_spec
    (channels groups : List String) (isOffline : Bool) :
    heartbeatCooldownStep channels groups (.disconnect isOffline) =
      (.heartbeatStopped channels groups,
        .cancelWait :: (if isOffline then [] else [.leave channels groups])) ∧
    heartbeatCooldownStep channels groups (.leftAll isOffline) =
      (.heartbeatInactive,
        .cancelWait :: (if isOffline then [] else [.leave channels groups])) ∧
    (PresenceEffect.leave channels groups ∈
        (heartbeatCooldownStep channels groups (.disconnect isOffline)).2 ↔
      isOffline = false) ∧
    (PresenceEffect.leave channels groups ∈
        (heartbeatCooldownStep channels groups (.leftAll isOffline)).2 ↔
      isOffline = false) := by
  cases isOffline <;>
    simp [heartbeatCooldownStep, presenceEngineStep, heartbeatCooldownOn,
      presenceOnExit, presenceOnEnter]

/-- C8: in `HEARTBEAT_COOLDOWN`, `timesUp` moves the engine to
`HEARTBEATING` carrying exactly the same channel and group lists as the
cooldown context. -/
theorem heartbeatCooldown_timesUp_spec (channels groups : List String) :
    heartbeatCooldownStep channels groups .timesUp =
      (.heartbeating channels groups,
        [.cancelWait, .heartbeat channels groups]) := rfl

/-- Counterexample to C6 as stated: the `joined` handler filters payload
members only against the context, so a payload that repeats a member
produces a duplicated context list even though the cooldown context was
duplicate-free: from context `([], [])`, `joined(["a","a"], [])` yields
the `HEARTBEATING` context `(["a","a"], [])`, which is not
duplicate-free. -/
theorem heartbeatCooldown_joined_nodup_counterexample :
    ([] : List String).Nodup ∧
    (heartbeatCooldownStep [] [] (.joined ["a", "a"] [])).1 =
      .heartbeating ["a", "a"] [] ∧
    ¬ (["a", "a"] : List String).Nodup :=
  ⟨by decide, rfl, by decide⟩

/-- C6 (amended): if the cooldown context's channel/group lists and the
`joined` payload's channel/group lists are all duplicate-free, then the
resulting `HEARTBEATING` context's lists are duplicate-free; and a
`joined` event whose members are all already present yields exactly the
same channel and group lists. -/
theorem heartbeatCooldown_joined_nodup_spec
    (channels groups pc pg : List String)
    (hc : channels.Nodup) (hg : groups.Nodup)
    (hpc : pc.Nodup) (hpg : pg.Nodup) :
    ∃ c2 g2,
      (heartbeatCooldownStep channels groups (.joined pc pg)).1 =
        .heartbeating c2 g2 ∧
      c2.Nodup ∧ g2.Nodup ∧
      ((∀ x ∈ pc, x ∈ channels) → (∀ x ∈ pg, x ∈ groups) →
        c2 = channels ∧ g2 = groups) := by
  refine ⟨_, _, rfl, ?_, ?_, ?_⟩
  · refine hc.append (hpc.filter _) ?_
    intro x hx hx'
    have := (List.mem_filter.mp hx').2
    simp at this
    exact this hx
  · refine hg.append (hpg.filter _) ?_
    intro x hx hx'
    have := (List.mem_filter.mp hx').2
    simp at this
    exact this hx
  · intro hallc hallg
    constructor
    · simp [heartbeatCooldownStep, presenceEngineStep, heartbeatCooldownOn]
      exact hallc
    · simp [heartbeatCooldownStep, presenceEngineStep, heartbeatCooldownOn]
      exact hallg

/-- Witness for C6 (amended): joining `["room1"]` when `["room1"]` is
already in the cooldown context keeps the context lists duplicate-free
and unchanged. -/
theorem heartbeatCooldown_joined_nodup_spec_witness :
    ∃ c2 g2,
      (heartbeatCooldownStep ["room1"] [] (.joined ["room1"] [])).1 =
        .heartbeating c2 g2 ∧
      c2.Nodup ∧ g2.Nodup ∧
      ((∀ x ∈ ["room1"], x ∈ ["room1"]) → (∀ x ∈ ([] : List String), x ∈ ([] : List String)) →
        c2 = ["room1"] ∧ g2 = []) :=
  heartbeatCooldown_joined_nodup_spec ["room1"] [] ["room1"] []
    (by decide) (by decide) (by decide) (by decide)

/-- C7: `HEARTBEAT_COOLDOWN` emits the `wait` timer effect on every entry
(`onEnter`) and the cancellation of `wait` on every exit (`onExit`); thus
for every event the cooldown state handles, the emitted effect sequence
begins with the cancellation and leaves no timer pending afterwards, so
no stale `timesUp` can be delivered in the successor state. -/
theorem heartbeatCooldown_wait_lifecycle_spec (channels groups : List String) :
    presenceOnEnter (.heartbeatCooldown channels groups) = [.wait] ∧
    presenceOnExit (.heartbeatCooldown channels groups) = [.cancelWait] ∧
    ∀ e, (heartbeatCooldownOn channels groups e).isSome = true →
      (heartbeatCooldownStep channels groups e).2.head? =
        some .cancelWait ∧
      waitTimerPending true (heartbeatCooldownStep channels groups e).2 =
        false := by
  refine ⟨rfl, rfl, ?_⟩
  intro e h
  cases e <;> simp [heartbeatCooldownOn] at h <;>
    first
    | exact ⟨rfl, rfl⟩
    | (rename_i isOffline
       cases isOffline <;> exact ⟨rfl, rfl⟩)

/-- Witness for C7: the `timesUp` exit from cooldown starts with the
wait-cancellation and leaves no timer pending. -/
theorem heartbeatCooldown_wait_lifecycle_spec_witness :
    (heartbeatCooldownStep ["room1"] [] .timesUp).2.head? =
      some .cancelWait ∧
    waitTimerPending true (heartbeatCooldownStep ["room1"] [] .timesUp).2 =
      false :=
  (heartbeatCooldown_wait_lifecycle_spec ["room1"] []).2.2 .timesUp rfl

/-- C5: whenever a state's transition table has no entry for an event's
kind, processing the event is a no-op — the engine stays in the same
state with unchanged context and emits no effects.  This holds for the
generic engine step, for the Presence engine step (whose exit/entry
hooks only run when a transition is found), and in particular for the
`UNSUBSCRIBED` state, whose table handles only `subscriptionChange` and
`restore`. -/
theorem no_transition_noop_spec :
    (∀ (σ ε φ : Type) (handler : ε → Option (σ × List φ)) (s : σ) (e : ε),
      handler e = none → engineStep handler s e = (s, [])) ∧
    (∀ (handler : PresenceEvent → Option (PresenceConf × List PresenceEffect))
        (s : PresenceConf) (e : PresenceEvent),
      handler e = none → presenceEngineStep handler s e = (s, [])) ∧
    (∀ e : SubEvent, e.kind ≠ .subscriptionChange → e.kind ≠ .restore →
      unsubscribedOn e = none ∧ unsubscribedStep e = (.unsubscribed, [])) := by
  refine ⟨?_, ?_, ?_⟩
  · intro σ ε φ handler s e h
    simp [engineStep, h]
  · intro handler s e h
    simp [presenceEngineStep, h]
  · intro e h1 h2
    cases e <;> simp [SubEvent.kind] at h1 h2 ⊢ <;>
      simp [unsubscribedOn, unsubscribedStep, engineStep]

/-- Witness for C5: `disconnect` has no entry in the `UNSUBSCRIBED`
table, so processing it there changes nothing and emits nothing. -/
theorem no_transition_noop_spec_witness :
    unsubscribedOn .disconnect = none ∧
    unsubscribedStep .disconnect = (.unsubscribed, []) :=
  no_transition_noop_spec.2.2 .disconnect (by decide) (by decide)

/-- Parameters of a `Set Channel Members` request, restricted to the
fields its `validate` method reads: the target `channel` (a string, where
the empty string is the JavaScript-falsy case of `!channel`) and the
`uuids` list (possibly missing altogether). -/
structure SetChannelMembersParameters where
  channel : String
  uuids : Option (List String)
deriving DecidableEq, Repr

/-- `SetChannelMembersRequest.validate` (`objects/member/set.js`):
returns `'Channel cannot be empty'` when `!channel`, then
`'UUIDs cannot be empty'` when `!uuids || uuids.length === 0`, and
otherwise returns `undefined` (no error). -/
def SetChannelMembersRequest.validate
    (p : SetChannelMembersParameters) : Option String :=
  if p.channel = "" then some "Channel cannot be empty"
  else
    match p.uuids with
    | none => some "UUIDs cannot be empty"
    | some uuids =>
        if uuids.length = 0 then some "UUIDs cannot be empty" else none

/-- Parameters of a `Set UUID Memberships` request, restricted to the
fields its `validate` method reads: the target `uuid` (possibly missing,
with the empty string as the other JavaScript-falsy case of `!uuid`) and
the `channels` list (possibly missing altogether). -/
structure SetUUIDMembershipsParameters where
  uuid : Option String
  channels : Option (List String)
deriving DecidableEq, Repr

/-- `SetUUIDMembershipsRequest.validate`
(`core/endpoints/objects/membership/set.ts`): returns
`"'uuid' cannot be empty"` when `!uuid`, then
`'Channels cannot be empty'` when `!channels || channels.length === 0`,
and otherwise returns `undefined` (no error). -/
def SetUUIDMembershipsRequest.validate
    (p : SetUUIDMembershipsParameters) : Option String :=
  match p.uuid with
  | none => some "'uuid' cannot be empty"
  | some uuid =>
      if uuid = "" then some "'uuid' cannot be empty"
      else
        match p.channels with
        | none => some "Channels cannot be empty"
        | some channels =>
            if channels.length = 0 then some "Channels cannot be empty"
            else none

/-- C9: `SetChannelMembersRequest.validate` reports an error exactly when
the channel is empty or the uuids list is missing or empty, and
`SetUUIDMembershipsRequest.validate` reports an error exactly when the
uuid is missing or empty or the channels list is missing or empty;
otherwise both return no error.  These checks run before any request is
built, so invalid input is rejected synchronously. -/
theorem validate_rejects_invalid_input_spec
    (channel : String) (uuids : Option (List String))
    (uuid : Option String) (channels : Option (List String)) :
    ((SetChannelMembersRequest.validate ⟨channel, uuids⟩).isSome = true ↔
      channel = "" ∨ uuids = none ∨ uuids = some []) ∧
    ((SetUUIDMembershipsRequest.validate ⟨uuid, channels⟩).isSome = true ↔
      uuid = none ∨ uuid = some "" ∨ channels = none ∨ channels = some []) := by
  constructor
  · cases uuids with
    | none =>
        by_cases hc : channel = "" <;>
          simp [SetChannelMembersRequest.validate, hc]
    | some l =>
        by_cases hc : channel = "" <;>
          simp [SetChannelMembersRequest.validate, hc, List.length_eq_zero]
  · cases uuid with
    | none => simp [SetUUIDMembershipsRequest.validate]
    | some u =>
        cases channels with
        | none =>
            by_cases hu : u = "" <;>
              simp [SetUUIDMembershipsRequest.validate, hu]
        | some l =>
            by_cases hu : u = "" <;>
              simp [SetUUIDMembershipsRequest.validate, hu,
                List.length_eq_zero]

/-- Error raised for invalid PubNub client configuration. -/
structure PubNubError where
  message : String
deriving DecidableEq, Repr

/-- The user-identity slice of the client configuration read by
`setDefaults`: `userId` and `uuid`, each either missing (`undefined`) or
a string. -/
structure UserConfiguration where
  userId : Option String
  uuid : Option String
deriving DecidableEq, Repr

/-- JavaScript truthiness of an optional string: `undefined` and the
empty string are falsy, every other string is truthy. -/
def truthyString : Option String → Bool
  | none => false
  | some s => s != ""

/-- The characters stripped by JavaScript `String.prototype.trim`:
ECMA-262 WhiteSpace ∪ LineTerminator, i.e. TAB, LF, VT, FF, CR, SP,
NBSP, the Ogham space mark, the Unicode space separators
U+2000–U+200A, the LS and PS line terminators, the narrow no-break
space, the medium mathematical space, the ideographic space, and
ZWNBSP. -/
def isJsWhitespace (c : Char) : Bool :=
  c.val = 0x09 || c.val = 0x0A || c.val = 0x0B || c.val = 0x0C ||
  c.val = 0x0D || c.val = 0x20 || c.val = 0xA0 || c.val = 0x1680 ||
  (0x2000 ≤ c.val && c.val ≤ 0x200A) || c.val = 0x2028 ||
  c.val = 0x2029 || c.val = 0x202F || c.val = 0x205F ||
  c.val = 0x3000 || c.val = 0xFEFF

/-- Whitespace trimming as performed by JavaScript
`String.prototype.trim`: removes leading and trailing characters from
the ECMA-262 WhiteSpace ∪ LineTerminator set. -/
def jsTrim (s : String) : String :=
  ⟨((s.data.dropWhile isJsWhitespace).reverse.dropWhile
      isJsWhitespace).reverse⟩

/-- The user-identity checks of `setDefaults`
(`core/interfaces/configuration.ts`), translated clause by clause:
throw `use only 'userId'` when both `userId` and `uuid` are truthy;
otherwise `userId ??= uuid` (assign only when `userId` is nullish); then
throw `'userId' not set` when the resulting `userId` is falsy, throw
`'userId' is empty` when `userId?.trim().length === 0`, and otherwise
return normally with the resulting `userId`.  The other fields defaulted
by `setDefaults` do not interact with these checks and are omitted from
the embedding. -/
def setDefaults (c : UserConfiguration) : Except PubNubError UserConfiguration :=
  if truthyString c.userId && truthyString c.uuid then
    .error ⟨"PubNub client configuration error: use only 'userId'"⟩
  else
    let userId : Option String :=
      match c.userId with
      | none => c.uuid
      | some s => some s
    if !truthyString userId then
      .error ⟨"PubNub client configuration error: 'userId' not set"⟩
    else if userId.map (fun s => (jsTrim s).length) = some 0 then
      .error ⟨"PubNub client configuration error: 'userId' is empty"⟩
    else .ok { c with userId := userId }

/-- The user identifier `setDefaults` ends up with: `userId`, falling
back to `uuid` only when `userId` is missing (`??=`). -/
def effectiveUserId (c : UserConfiguration) : Option String :=
  match c.userId with
  | none => c.uuid
  | some s => some s

/-- C10: `setDefaults` throws a `PubNubError` for every configuration
whose `userId` and `uuid` are both set (truthy); otherwise it falls back
to `uuid` when `userId` is absent, and then throws exactly when the
resulting user identifier is still unset or trims to length zero; every
other configuration returns normally. -/
theorem setDefaults_userId_spec (c : UserConfiguration) :
    (truthyString c.userId = true ∧ truthyString c.uuid = true →
      ∃ err, setDefaults c = .error err) ∧
    (¬(truthyString c.userId = true ∧ truthyString c.uuid = true) →
      ((∃ err, setDefaults c = .error err) ↔
        (effectiveUserId c = none ∨
          ∃ s, effectiveUserId c = some s ∧ (jsTrim s).length = 0))) := by
  obtain ⟨userId, uuid⟩ := c
  constructor
  · rintro ⟨h1, h2⟩
    exact ⟨⟨"PubNub client configuration error: use only 'userId'"⟩,
      by simp [setDefaults, h1, h2]⟩
  · intro h
    cases userId with
    | none =>
        cases uuid with
        | none => simp [setDefaults, truthyString, effectiveUserId]
        | some u =>
            by_cases hu : u = ""
            · subst hu
              simp [setDefaults, truthyString, effectiveUserId]
              decide
            · by_cases ht : (jsTrim u).length = 0 <;>
                simp [setDefaults, truthyString, effectiveUserId, hu, ht]
    | some s =>
        by_cases hse : s = ""
        · subst hse
          simp [setDefaults, truthyString, effectiveUserId]
          decide
        · have htr : truthyString (some s) = true := by
            simp [truthyString, hse]
          have hs : truthyString uuid = false := by
            by_contra hb
            exact h ⟨htr, eq_true_of_ne_false hb⟩
          have hguard :
              (truthyString (some s) && truthyString uuid) = false := by
            simp [htr, hs]
          by_cases ht : (jsTrim s).length = 0 <;>
            simp [setDefaults, hguard, htr, hs, effectiveUserId, hse, ht]

/-- Witness for C10: setting both `userId := "user"` and `uuid := "uuid"`
makes `setDefaults` throw. -/
theorem setDefaults_userId_spec_witness :
    ∃ err, setDefaults ⟨some "user", some "uuid"⟩ = .error err :=
  (setDefaults_userId_spec ⟨some "user", some "uuid"⟩).1 ⟨by decide, by decide⟩

end PubNub
